import Mathlib

/-!
# Verification of the capability-probing client (cin7-pendo-api)

Shallow embedding of the core of the repository:

* the Safety Gate (`examples/write_access_analyzer.py`,
  `WriteAccessAnalyzer.safe_read_only_request` and its audit log),
* the Transport layer and Probe Engine
  (`examples/real_pendo_api_explorer.py`, `test_pendo_endpoint` /
  `test_real_pendo_endpoints` / `generate_comprehensive_report`),
* the Classifier (`examples/access_capabilities_investigator.py`,
  `analyze_permissions`).

Python values returned by the HTTP layer are modelled by `PyVal`; the
network itself is an explicit input (a response oracle), so every
definition is a pure function of its inputs.
-/

/-- A Python value as it flows through the client: `None`, booleans,
integers, strings, lists and dicts (JSON-decoded bodies land here). -/
inductive PyVal where
  | none
  | bool (b : Bool)
  | int (n : Int)
  | str (s : String)
  | list (xs : List PyVal)
  | dict (fields : List (String × PyVal))

/-- Python `isinstance(v, (dict, list))`, used by the capability
heuristic's `has_data` indicator. -/
def PyVal.isDictOrList : PyVal → Bool
  | .list _ => true
  | .dict _ => true
  | _ => false

/-- Python `v is None`. -/
def PyVal.isNone : PyVal → Bool
  | .none => true
  | _ => false

/-- Python `s.upper()` (ASCII uppercasing of each character, as the
method verbs here are ASCII). -/
def pyUpper (s : String) : String := String.mk (s.data.map Char.toUpper)

/-- Whether `needle` occurs as a contiguous run of `hay` (checked at every
suffix of `hay`). -/
def charsContain (needle : List Char) : List Char → Bool
  | [] => needle.isEmpty
  | c :: cs => needle.isPrefixOf (c :: cs) || charsContain needle cs

/-- Python `needle in hay` on strings (substring containment). -/
def strContains (hay needle : String) : Bool :=
  charsContain needle.toList hay.toList

section SafetyGate

/-- The list `self.allowed_methods` (write_access_analyzer.py line 57). -/
def allowed_methods : List String := ["GET", "OPTIONS", "HEAD"]

/-- The list `self.blocked_methods` (write_access_analyzer.py line 58). -/
def blocked_methods : List String := ["POST", "PUT", "DELETE", "PATCH"]

/-- One entry of `self.security_log` as built by
`WriteAccessAnalyzer.security_log_entry` (lines 65-83). -/
structure LogEntry where
  timestamp : String
  operation : String
  endpoint : String
  method : String
  success : Bool
  details : String
  data_safe : Bool
deriving DecidableEq

/-- Model of `WriteAccessAnalyzer.security_log_entry`: builds the dict that is
appended to `self.security_log`; `data_safe` is hard-coded `True`. -/
def security_log_entry (now operation endpoint method : String)
    (success : Bool) (details : String) : LogEntry :=
  { timestamp := now
    operation := operation
    endpoint := endpoint
    method := method
    success := success
    details := details
    data_safe := true }

/-- What `self.session.request(...)` yields inside
`safe_read_only_request`: either an HTTP response (status, content-type
header, the result of attempting `response.json()` — `Option.none` for a
`JSONDecodeError` — the raw text and the reason phrase), or a raised
`requests.exceptions.RequestException` with its message. -/
inductive SessionResp where
  | response (status : Nat) (contentType : String) (jsonData : Option PyVal)
      (text : String) (reason : String)
  | exn (msg : String)

/-- The result of one call to the guarded send: either a value returned
to the caller (`data`, `{'text': ...}` or `None`) or a raised
`SecurityError`. -/
inductive ReqOutcome where
  | ret (v : PyVal)
  | securityError (msg : String)

/-- Observable effect of one `safe_read_only_request` call: its result,
the entries it appended to `self.security_log`, and whether the
Transport layer (`self.session.request`) was invoked. -/
structure CallResult where
  outcome : ReqOutcome
  newEntries : List LogEntry
  networkCalled : Bool

/-- Model of `WriteAccessAnalyzer.safe_read_only_request` (lines 85-145).
The network is passed in as `resp`, consumed only on the branch that
actually issues the request.  Emoji prefixes of the Python messages are
omitted; the structure of every branch is kept. -/
def safe_read_only_request (now method endpoint : String)
    (resp : SessionResp) : CallResult :=
  -- SECURITY CHECK: Block all write operations (line 90)
  if pyUpper method ∈ blocked_methods then
    { outcome := .securityError
        ("SECURITY BLOCK: " ++ method ++
          " operations not allowed - READ-ONLY ANALYSIS ONLY")
      newEntries := []
      networkCalled := false }
  -- SECURITY CHECK: Only allow read-only methods (line 96)
  else if pyUpper method ∉ allowed_methods then
    { outcome := .securityError
        ("SECURITY BLOCK: " ++ method ++
          " not permitted - Only GET, OPTIONS, HEAD allowed")
      newEntries := []
      networkCalled := false }
  else
    match resp with
    | .response status contentType jsonData text reason =>
      if status ∈ [200, 201, 202] then
        if strContains contentType "application/json" then
          match jsonData with
          | some data =>
            { outcome := .ret data
              newEntries := [security_log_entry now "SAFE_READ_REQUEST"
                endpoint method true
                ("Status " ++ toString status ++ ", Data retrieved safely")]
              networkCalled := true }
          | Option.none =>
            { outcome := .ret (.dict [("text", .str text)])
              newEntries := [security_log_entry now "SAFE_READ_REQUEST"
                endpoint method true
                ("Status " ++ toString status ++ ", Non-JSON response")]
              networkCalled := true }
        else
          { outcome := .ret (.dict [("text", .str text)])
            newEntries := [security_log_entry now "SAFE_READ_REQUEST"
              endpoint method true
              ("Status " ++ toString status ++
                ", Non-JSON content type: " ++ contentType)]
            networkCalled := true }
      else
        { outcome := .ret .none
          newEntries := [security_log_entry now "SAFE_READ_REQUEST"
            endpoint method false
            ("Status " ++ toString status ++ ": " ++ reason.take 100)]
          networkCalled := true }
    | .exn msg =>
      { outcome := .ret .none
        newEntries := [security_log_entry now "SAFE_READ_REQUEST"
          endpoint method false ("Request failed: " ++ msg.take 100)]
        networkCalled := true }

/-- One invocation of the guarded send: the clock reading, the method
and endpoint arguments, and the response the network would give if the
request were issued. -/
structure GateCall where
  now : String
  method : String
  endpoint : String
  resp : SessionResp

/-- The `security_log` accumulated by a sequence of guarded-send calls
(entries are appended in call order). -/
def runCalls : List GateCall → List LogEntry
  | [] => []
  | c :: cs =>
    (safe_read_only_request c.now c.method c.endpoint c.resp).newEntries
      ++ runCalls cs

/-- The report built by `WriteAccessAnalyzer.generate_security_report`
(lines 378-408); the file-writing side effects are out of scope. -/
structure SecurityReport where
  total_operations : Nat
  successful_operations : Nat
  success_rate : ℚ
  write_attempts_blocked : Nat
  data_safety_verified : Bool
  analysis_categories : Nat
  security_log_entries : Nat
  data_modification_attempts : Nat
  safety_status : String

/-- Model of `WriteAccessAnalyzer.generate_security_report`: aggregates
`self.security_log`; `analysisCount` is `len(self.analysis_results)`. -/
def generate_security_report (log : List LogEntry) (analysisCount : Nat) :
    SecurityReport :=
  let total_operations := log.length
  let successful_operations := (log.filter (fun l => l.success)).length
  let write_attempts := log.filter (fun l => l.method ∈ blocked_methods)
  let data_safe := log.all (fun l => l.data_safe)
  { total_operations := total_operations
    successful_operations := successful_operations
    success_rate :=
      if total_operations > 0 then
        ((successful_operations : ℚ) / (total_operations : ℚ)) * 100
      else 0
    write_attempts_blocked := write_attempts.length
    data_safety_verified := data_safe
    analysis_categories := analysisCount
    security_log_entries := log.length
    data_modification_attempts := 0
    safety_status :=
      if data_safe ∧ write_attempts.length = 0 then "VERIFIED SAFE"
      else "NEEDS REVIEW" }

/-- The capability-likelihood assignment of
`WriteAccessAnalyzer.test_write_capability_indicators` (lines 276-291),
as a function of the three values returned by the guarded OPTIONS, HEAD
and GET probes of one endpoint (`options_data`, `head_response`,
`get_data`). -/
def write_capability_level (options_data head_response get_data : PyVal) :
    String :=
  let get_accessible := !get_data.isNone
  let has_data := !get_data.isNone && get_data.isDictOrList
  let head_accessible := !head_response.isNone
  let _options_available := !options_data.isNone
  if get_accessible && has_data then "HIGH - Endpoint accessible with data"
  else if get_accessible then "MEDIUM - Endpoint accessible"
  else if head_accessible then "LOW - Endpoint exists"
  else "NONE - Endpoint not accessible"

/-- Spec-side predicate for claim C6, following the claim wording
rather than the code: GET returned "non-empty structured data" — a list with at least
one element or a dict with at least one key. -/
def specNonEmptyStructured : PyVal → Bool
  | .list xs => !xs.isEmpty
  | .dict fs => !fs.isEmpty
  | _ => false

/-- The HIGH clause of claim C6 exactly as stated: the level is HIGH if
and only if the GET probe succeeds and returns non-empty structured
data. -/
def claimC6HighIff : Prop :=
  ∀ vOpt vHead vGet : PyVal,
    write_capability_level vOpt vHead vGet =
        "HIGH - Endpoint accessible with data" ↔
      (!vGet.isNone && specNonEmptyStructured vGet) = true

end SafetyGate

section Explorer

/-- What `requests.request(...)` yields inside `test_pendo_endpoint`
(real_pendo_api_explorer.py lines 139-146): an HTTP response with its
status, content-type header, raw body text, the result of attempting
`response.json()` (`Option.none` for a `JSONDecodeError`) and the full
header dict — or a raised `requests.exceptions.RequestException`. -/
inductive HttpResp where
  | ok (status : Nat) (contentType : String) (content : String)
      (parsed : Option PyVal) (headers : List (String × String))
  | exn (msg : String)

/-- The result dict returned by `test_pendo_endpoint`; optional fields
model keys that are present only on some branches. -/
structure TransportOutcome where
  base_url : String
  endpoint : String
  method : String
  status_code : Option Nat
  success : Bool
  content_type : Option String
  content_length : Option Nat
  headers : Option (List (String × String))
  sample_data : Option PyVal
  text_preview : Option String
  error : Option String

/-- Model of `RealPendoAPIExplorer.test_pendo_endpoint` (lines 128-177); the
network is the explicit `resp` input. -/
def test_pendo_endpoint (base_url endpoint method : String)
    (resp : HttpResp) : TransportOutcome :=
  match resp with
  | .ok status contentType content parsed headers =>
    let result : TransportOutcome :=
      { base_url := base_url
        endpoint := endpoint
        method := method
        status_code := some status
        success := decide (status < 400)
        content_type := some contentType
        content_length := some content.length
        headers := some headers
        sample_data := Option.none
        text_preview := Option.none
        error := Option.none }
    if content ≠ "" && strContains contentType "application/json" then
      match parsed with
      | some v => { result with sample_data := some v }
      | Option.none => { result with text_preview := some (content.take 200) }
    else if content ≠ "" then
      { result with text_preview := some (content.take 200) }
    else result
  | .exn msg =>
    { base_url := base_url
      endpoint := endpoint
      method := method
      status_code := Option.none
      success := false
      content_type := Option.none
      content_length := Option.none
      headers := Option.none
      sample_data := Option.none
      text_preview := Option.none
      error := some msg }

/-- Model of `RealPendoAPIExplorer.test_real_pendo_endpoints` (lines 98-126):
iterates base URLs (outer loop) and endpoints (inner loop), calling
`test_pendo_endpoint` with the default method GET on each pair and
collecting the results in order.  `net` is the response oracle. -/
def test_real_pendo_endpoints :
    List String → List String → (String → String → HttpResp) →
      List TransportOutcome
  | [], _, _ => []
  | b :: bs, endpoints, net =>
    (endpoints.map (fun e => test_pendo_endpoint b e "GET" (net b e)))
      ++ test_real_pendo_endpoints bs endpoints net

/-- The report dict built by
`RealPendoAPIExplorer.generate_comprehensive_report` (lines 405-437);
the JSON file write is out of scope. -/
structure ExplorerReport where
  exploration_timestamp : String
  integration_key : String
  case_code : String
  base_urls_tested : List String
  working_base_url : Option String
  total_tests : Nat
  successful_tests : Nat
  success_rate : ℚ
  working_endpoints : List String
  discovered_capabilities : List String
  detailed_results : List TransportOutcome

/-- The category string `_discover_capabilities` (lines 439-467) adds
for one successful result's endpoint, following its if/elif chain of
substring tests. -/
def capabilityOf (endpoint : String) : Option String :=
  if strContains endpoint "aggregation" then some "Analytics & Aggregation"
  else if strContains endpoint "visitor" then some "Visitor Management"
  else if strContains endpoint "account" then some "Account Management"
  else if strContains endpoint "guide" then some "Guide Management"
  else if strContains endpoint "feature" then some "Feature Analytics"
  else if strContains endpoint "page" then some "Page Analytics"
  else if strContains endpoint "track" || strContains endpoint "event" then
    some "Event Tracking"
  else if strContains endpoint "report" then some "Reporting"
  else if strContains endpoint "metadata" then some "Metadata Management"
  else if strContains endpoint "status" || strContains endpoint "health" then
    some "System Status"
  else Option.none

/-- Append `c` unless already present (the Python `set.add`, with the
set modelled as an insertion-ordered duplicate-free list). -/
def addCapability (caps : List String) (c : String) : List String :=
  if c ∈ caps then caps else caps ++ [c]

/-- Model of `RealPendoAPIExplorer._discover_capabilities` over the successful
results. -/
def discover_capabilities (successful : List TransportOutcome) :
    List String :=
  successful.foldl
    (fun caps r =>
      match capabilityOf r.endpoint with
      | some c => addCapability caps c
      | Option.none => caps)
    []

/-- Model of `RealPendoAPIExplorer.generate_comprehensive_report` (lines
405-437).  `timestamp` is the `datetime.now().isoformat()` reading taken
at the top of the function; `api_key`, `case_code`, `base_urls` and
`working_base_url` are the instance attributes it reads; `all_results`
is its argument (a list of result groups, flattened first). -/
def generate_comprehensive_report (timestamp api_key case_code : String)
    (base_urls : List String) (working_base_url : Option String)
    (all_results : List (List TransportOutcome)) : ExplorerReport :=
  let flattened := all_results.flatten
  let successful := flattened.filter (fun r => r.success)
  { exploration_timestamp := timestamp
    integration_key := api_key.take 10 ++ "..."
    case_code := case_code
    base_urls_tested := base_urls
    working_base_url := working_base_url
    total_tests := flattened.length
    successful_tests := successful.length
    success_rate :=
      if !flattened.isEmpty then
        ((successful.length : ℚ) / (flattened.length : ℚ)) * 100
      else 0
    working_endpoints := successful.map (fun r => r.endpoint)
    discovered_capabilities := discover_capabilities successful
    detailed_results := flattened }

end Explorer

section Investigator

/-- One entry of `PendoAccessInvestigator.results` as built by
`log_result` (access_capabilities_investigator.py lines 27-43); only
the fields `analyze_permissions` reads are carried, plus the detail
string. -/
structure InvResult where
  category : String
  operation : String
  success : Bool
  details : String
deriving DecidableEq

/-- One step of the category-tally loop of `analyze_permissions` (lines
279-286): the dict `categories` is modelled as an insertion-ordered
association list of `(category, successes, total)`. -/
def addResult : List (String × Nat × Nat) → InvResult →
    List (String × Nat × Nat)
  | [], r => [(r.category, (if r.success then 1 else 0), 1)]
  | (c, s, t) :: rest, r =>
    if c = r.category then
      (c, s + (if r.success then 1 else 0), t + 1) :: rest
    else (c, s, t) :: addResult rest r

/-- Model of `PendoAccessInvestigator.analyze_permissions` (lines 273-312):
returns the per-category tallies and the overall access-level
classification.  The overall rate is `successes / total * 100`,
compared against the fixed thresholds 75, 50, 25. -/
def analyze_permissions (results : List InvResult) :
    List (String × Nat × Nat) × String :=
  let categories := results.foldl addResult []
  let total_success := (results.filter (fun r => r.success)).length
  let total_operations := results.length
  let overall_success_rate : ℚ :=
    ((total_success : ℚ) / (total_operations : ℚ)) * 100
  let access_level :=
    if overall_success_rate ≥ 75 then "FULL ACCESS"
    else if overall_success_rate ≥ 50 then "MODERATE ACCESS"
    else if overall_success_rate ≥ 25 then "LIMITED ACCESS"
    else "MINIMAL ACCESS"
  (categories, access_level)

/-- Python `s.lower()` (ASCII lowercasing, as the operation names here
are ASCII). -/
def pyLower (s : String) : String := String.mk (s.data.map Char.toLower)

/-- The `capabilities_summary` dict of
`PendoAccessInvestigator.generate_investigation_report` (lines
344-350). -/
structure CapabilitiesSummary where
  read_access : Nat
  write_access : Nat
  management_access : Nat
  delete_access : Nat
  account_access : Nat

/-- The report dict built by
`PendoAccessInvestigator.generate_investigation_report` (lines
314-359); the JSON file write is out of scope.  `api_status` and
`data_overview` are live reads made at build time (`get_api_status` /
`get_data_overview` of pendo_client_v2.py; the latter embeds its own
`datetime.now()` reading at line 220), so they are inputs here. -/
structure InvReport where
  investigation_timestamp : String
  integration_key : String
  base_url : String
  api_status : PyVal
  data_overview : PyVal
  access_level : String
  permission_breakdown : List (String × Nat × Nat)
  total_operations_tested : Nat
  successful_operations : Nat
  detailed_results : List InvResult
  capabilities_summary : CapabilitiesSummary

/-- Model of `PendoAccessInvestigator.generate_investigation_report`
(lines 314-359).  `timestamp` is the `datetime.now().isoformat()`
reading taken at the top of the function; `api_status` and
`data_overview` are the values the two live client reads produced
(error dicts included); `results` is `self.results`. -/
def generate_investigation_report (timestamp api_key base_url : String)
    (api_status data_overview : PyVal) (results : List InvResult) :
    InvReport :=
  let pa := analyze_permissions results
  { investigation_timestamp := timestamp
    integration_key := api_key.take 10 ++ "..."
    base_url := base_url
    api_status := api_status
    data_overview := data_overview
    access_level := pa.2
    permission_breakdown := pa.1
    total_operations_tested := results.length
    successful_operations := (results.filter (fun r => r.success)).length
    detailed_results := results
    capabilities_summary :=
      { read_access := (results.filter (fun r => r.success &&
          (strContains (pyLower r.operation) "read" ||
            decide (r.category ∈ ["Guides", "Features", "Pages",
              "Reports", "Metadata"])))).length
        write_access := (results.filter (fun r => r.success &&
          (strContains (pyLower r.operation) "create" ||
            strContains (pyLower r.operation) "update" ||
            strContains (pyLower r.operation) "write"))).length
        management_access := (results.filter (fun r => r.success &&
          decide (r.category ∈ ["Analytics", "Events",
            "Bulk Operations"]))).length
        delete_access := (results.filter (fun r => r.success &&
          r.category == "Delete")).length
        account_access := (results.filter (fun r => r.success &&
          r.category == "Account")).length } }

end Investigator

section GateLemmas

/-- The two method lists are disjoint. -/
theorem allowed_not_blocked {u : String} (h : u ∈ allowed_methods) :
    u ∉ blocked_methods := by
  intro hb
  simp only [allowed_methods, List.mem_cons, List.not_mem_nil, or_false] at h
  rcases h with h | h | h <;> subst h <;> revert hb <;> decide

/-- Every entry appended by one guarded-send call records the method
argument verbatim, carries `data_safe = true`, and can only exist when
the uppercased method is in the allow-list. -/
theorem mem_newEntries {now m e : String} {resp : SessionResp}
    {en : LogEntry}
    (h : en ∈ (safe_read_only_request now m e resp).newEntries) :
    en.method = m ∧ en.data_safe = true ∧ pyUpper m ∈ allowed_methods := by
  unfold safe_read_only_request at h
  split at h
  · simp at h
  · split at h
    · simp at h
    · rename_i hba hal
      rw [not_not] at hal
      rcases resp with ⟨status, ct, jd, tx, rs⟩ | msg
      · simp only at h
        split at h
        · split at h
          · rcases jd with _ | v
            · simp only [List.mem_singleton] at h
              subst h; exact ⟨rfl, rfl, hal⟩
            · simp only [List.mem_singleton] at h
              subst h; exact ⟨rfl, rfl, hal⟩
          · simp only [List.mem_singleton] at h
            subst h; exact ⟨rfl, rfl, hal⟩
        · simp only [List.mem_singleton] at h
          subst h; exact ⟨rfl, rfl, hal⟩
      · simp only [List.mem_singleton] at h
        subst h; exact ⟨rfl, rfl, hal⟩

/-- Every entry of the accumulated audit log has an uppercased method
in the allow-list. -/
theorem runCalls_method_allowed (cs : List GateCall) :
    ∀ en ∈ runCalls cs, pyUpper en.method ∈ allowed_methods := by
  induction cs with
  | nil => intro en h; simp [runCalls] at h
  | cons c cs ih =>
    intro en h
    simp only [runCalls, List.mem_append] at h
    rcases h with h | h
    · obtain ⟨hm, _, hal⟩ := mem_newEntries h
      rw [hm]; exact hal
    · exact ih en h

/-- Every entry of the accumulated audit log has `data_safe = true`. -/
theorem runCalls_data_safe (cs : List GateCall) :
    ∀ en ∈ runCalls cs, en.data_safe = true := by
  induction cs with
  | nil => intro en h; simp [runCalls] at h
  | cons c cs ih =>
    intro en h
    simp only [runCalls, List.mem_append] at h
    rcases h with h | h
    · exact (mem_newEntries h).2.1
    · exact ih en h

end GateLemmas

/-- C1: a guarded-send call whose uppercased method is a mutating verb
(POST, PUT, DELETE, PATCH) is rejected before Transport is invoked —
no network request is made and no audit entry is appended for it — and
consequently no audit entry of any call sequence ever records a method
that uppercases to a mutating verb. -/
theorem blocked_method_never_reaches_transport
    (now m e : String) (resp : SessionResp)
    (h : pyUpper m ∈ blocked_methods) :
    (safe_read_only_request now m e resp).networkCalled = false ∧
    (safe_read_only_request now m e resp).newEntries = [] ∧
    ∀ cs : List GateCall, ∀ en ∈ runCalls cs,
      pyUpper en.method ∉ blocked_methods := by
  refine ⟨?_, ?_, ?_⟩
  · unfold safe_read_only_request; rw [if_pos h]
  · unfold safe_read_only_request; rw [if_pos h]
  · intro cs en hen
    exact allowed_not_blocked (runCalls_method_allowed cs en hen)

/-- C1 witness: a concrete DELETE call is blocked locally. -/
theorem blocked_method_never_reaches_transport_witness :
    pyUpper "DELETE" ∈ blocked_methods ∧
    (safe_read_only_request "t0" "DELETE" "/api/v1/visitor"
        (.exn "unused")).networkCalled = false ∧
    (safe_read_only_request "t0" "DELETE" "/api/v1/visitor"
        (.exn "unused")).newEntries = [] := by
  have h := blocked_method_never_reaches_transport "t0" "DELETE"
    "/api/v1/visitor" (.exn "unused") (by decide)
  exact ⟨by decide, h.1, h.2.1⟩

section GateBehaviour

/-- An allowed call (uppercased method in the allow-list) issues the
network request and appends exactly one audit entry. -/
theorem gate_allowed_run (now m e : String) (resp : SessionResp)
    (h : pyUpper m ∈ allowed_methods) :
    (safe_read_only_request now m e resp).networkCalled = true ∧
    (safe_read_only_request now m e resp).newEntries.length = 1 := by
  have hnb := allowed_not_blocked h
  unfold safe_read_only_request
  rw [if_neg hnb, if_neg (not_not_intro h)]
  rcases resp with ⟨st, ct, jd, tx, rs⟩ | msg
  · dsimp only
    split
    · split
      · rcases jd with _ | v <;> exact ⟨rfl, rfl⟩
      · exact ⟨rfl, rfl⟩
    · exact ⟨rfl, rfl⟩
  · exact ⟨rfl, rfl⟩

/-- A call whose uppercased method is outside the allow-list appends no
audit entry, never touches the network, and raises `SecurityError`. -/
theorem gate_not_allowed (now m e : String) (resp : SessionResp)
    (h : pyUpper m ∉ allowed_methods) :
    (safe_read_only_request now m e resp).newEntries = [] ∧
    (safe_read_only_request now m e resp).networkCalled = false ∧
    ∃ s, (safe_read_only_request now m e resp).outcome =
      ReqOutcome.securityError s := by
  by_cases hb : pyUpper m ∈ blocked_methods
  · unfold safe_read_only_request
    rw [if_pos hb]
    exact ⟨rfl, rfl, _, rfl⟩
  · unfold safe_read_only_request
    rw [if_neg hb, if_pos h]
    exact ⟨rfl, rfl, _, rfl⟩

end GateBehaviour

/-- C2 counterexample: a blocked DELETE call appends no audit entry at
all (the claim demands exactly one entry per guarded-send call,
blocked calls included). -/
theorem blocked_call_appends_no_entry_counterexample :
    (safe_read_only_request "t0" "DELETE" "/api/v1/visitor"
        (.exn "unused")).newEntries.length ≠ 1 ∧
    runCalls [⟨"t0", "DELETE", "/api/v1/visitor", .exn "unused"⟩] = [] := by
  exact ⟨by decide, rfl⟩

/-- C2 (amended): every allowed guarded-send call appends exactly one
audit entry; a call whose method is outside the allow-list appends no
entry and raises `SecurityError` instead; hence, over any call
sequence, the audit log has exactly one entry per allowed call. -/
theorem audit_log_one_entry_per_allowed_call
    (now m e : String) (resp : SessionResp) :
    (pyUpper m ∈ allowed_methods →
      (safe_read_only_request now m e resp).newEntries.length = 1) ∧
    (pyUpper m ∉ allowed_methods →
      (safe_read_only_request now m e resp).newEntries = [] ∧
      ∃ s, (safe_read_only_request now m e resp).outcome =
        ReqOutcome.securityError s) ∧
    ∀ cs : List GateCall,
      (runCalls cs).length =
        (cs.filter (fun c => pyUpper c.method ∈ allowed_methods)).length := by
  refine ⟨fun h => (gate_allowed_run now m e resp h).2,
    fun h => ⟨(gate_not_allowed now m e resp h).1,
      (gate_not_allowed now m e resp h).2.2⟩, ?_⟩
  intro cs
  induction cs with
  | nil => rfl
  | cons c cs ih =>
    simp only [runCalls, List.length_append, List.filter_cons]
    by_cases hc : pyUpper c.method ∈ allowed_methods
    · rw [(gate_allowed_run c.now c.method c.endpoint c.resp hc).2, ih,
        if_pos (by simpa using hc)]
      simp [Nat.add_comm]
    · rw [(gate_not_allowed c.now c.method c.endpoint c.resp hc).1,
        if_neg (by simpa using hc)]
      simpa using ih

/-- C2 witness: over one allowed GET call and one blocked DELETE call,
the audit log has exactly one entry. -/
theorem audit_log_one_entry_per_allowed_call_witness :
    pyUpper "GET" ∈ allowed_methods ∧
    (safe_read_only_request "t0" "GET" "/api/v1/guide"
        (.exn "timeout")).newEntries.length = 1 ∧
    (runCalls [⟨"t0", "GET", "/api/v1/guide", .exn "timeout"⟩,
        ⟨"t1", "DELETE", "/api/v1/guide", .exn "unused"⟩]).length = 1 := by
  have h := audit_log_one_entry_per_allowed_call "t0" "GET" "/api/v1/guide"
    (.exn "timeout")
  refine ⟨by decide, h.1 (by decide), ?_⟩
  rw [h.2.2 [⟨"t0", "GET", "/api/v1/guide", .exn "timeout"⟩,
    ⟨"t1", "DELETE", "/api/v1/guide", .exn "unused"⟩]]
  decide

/-- C3 counterexample: a DELETE attempt while locked does not return
any value to its caller — the rejection is a raised `SecurityError`,
not a returned failure Outcome. -/
theorem delete_rejection_not_returned_counterexample :
    ¬ ∃ v, (safe_read_only_request "t0" "DELETE" "/api/v1/guide"
        (.exn "unused")).outcome = ReqOutcome.ret v := by
  rintro ⟨v, hv⟩
  have hred : (safe_read_only_request "t0" "DELETE" "/api/v1/guide"
      (.exn "unused")).outcome = ReqOutcome.securityError
      ("SECURITY BLOCK: DELETE operations not allowed - READ-ONLY ANALYSIS ONLY") := rfl
  rw [hred] at hv
  exact ReqOutcome.noConfusion hv

/-- C3 (amended): any call whose uppercased method is outside the
allow-list {GET, OPTIONS, HEAD} is rejected before Transport is invoked
by raising `SecurityError` — with the blocked-verb message for the
uppercased mutating verbs caught by the first check, and the
not-permitted message for every other method (TRACE, CONNECT, ...)
caught by the second check — a result kind distinct from a network
failure, which is absorbed and returns `None` to the caller. -/
theorem policy_block_distinct_from_network_failure
    (now m e : String) (resp : SessionResp)
    (h : pyUpper m ∉ allowed_methods) :
    (safe_read_only_request now m e resp).outcome =
      ReqOutcome.securityError
        (if pyUpper m ∈ blocked_methods then
          "SECURITY BLOCK: " ++ m ++
            " operations not allowed - READ-ONLY ANALYSIS ONLY"
        else
          "SECURITY BLOCK: " ++ m ++
            " not permitted - Only GET, OPTIONS, HEAD allowed") ∧
    (safe_read_only_request now m e resp).networkCalled = false ∧
    ∀ now' m' e' s, pyUpper m' ∈ allowed_methods →
      (safe_read_only_request now' m' e' (.exn s)).outcome =
        ReqOutcome.ret PyVal.none ∧
      (safe_read_only_request now' m' e' (.exn s)).outcome ≠
        (safe_read_only_request now m e resp).outcome := by
  have h1 : (safe_read_only_request now m e resp).outcome =
      ReqOutcome.securityError
        (if pyUpper m ∈ blocked_methods then
          "SECURITY BLOCK: " ++ m ++
            " operations not allowed - READ-ONLY ANALYSIS ONLY"
        else
          "SECURITY BLOCK: " ++ m ++
            " not permitted - Only GET, OPTIONS, HEAD allowed") := by
    by_cases hb : pyUpper m ∈ blocked_methods
    · rw [if_pos hb]
      unfold safe_read_only_request
      rw [if_pos hb]
    · rw [if_neg hb]
      unfold safe_read_only_request
      rw [if_neg hb, if_pos h]
  refine ⟨h1, (gate_not_allowed now m e resp h).2.1, ?_⟩
  intro now' m' e' s h'
  have h2 : (safe_read_only_request now' m' e' (.exn s)).outcome =
      ReqOutcome.ret PyVal.none := by
    unfold safe_read_only_request
    rw [if_neg (allowed_not_blocked h'), if_neg (not_not_intro h')]
  refine ⟨h2, ?_⟩
  rw [h1, h2]
  exact fun hh => ReqOutcome.noConfusion hh

/-- C3 witness: DELETE is blocked with the blocked-verb message and no
network call, TRACE (outside both lists) is blocked with the
not-permitted message and no network call, and a GET that hits a
network failure returns `None`, a different outcome kind from both. -/
theorem policy_block_distinct_from_network_failure_witness :
    (safe_read_only_request "t0" "DELETE" "/api/v1/visitor"
        (.exn "unused")).networkCalled = false ∧
    (safe_read_only_request "t0" "DELETE" "/api/v1/visitor"
        (.exn "unused")).outcome = ReqOutcome.securityError
      "SECURITY BLOCK: DELETE operations not allowed - READ-ONLY ANALYSIS ONLY" ∧
    (safe_read_only_request "t2" "TRACE" "/api/v1/visitor"
        (.exn "unused")).networkCalled = false ∧
    (safe_read_only_request "t2" "TRACE" "/api/v1/visitor"
        (.exn "unused")).outcome = ReqOutcome.securityError
      "SECURITY BLOCK: TRACE not permitted - Only GET, OPTIONS, HEAD allowed" ∧
    (safe_read_only_request "t1" "GET" "/api/v1/visitor"
        (.exn "dns failure")).outcome = ReqOutcome.ret PyVal.none ∧
    (safe_read_only_request "t1" "GET" "/api/v1/visitor"
        (.exn "dns failure")).outcome ≠
      (safe_read_only_request "t0" "DELETE" "/api/v1/visitor"
        (.exn "unused")).outcome ∧
    (safe_read_only_request "t1" "GET" "/api/v1/visitor"
        (.exn "dns failure")).outcome ≠
      (safe_read_only_request "t2" "TRACE" "/api/v1/visitor"
        (.exn "unused")).outcome := by
  have hd := policy_block_distinct_from_network_failure "t0" "DELETE"
    "/api/v1/visitor" (.exn "unused") (by decide)
  have ht := policy_block_distinct_from_network_failure "t2" "TRACE"
    "/api/v1/visitor" (.exn "unused") (by decide)
  have hd2 := hd.2.2 "t1" "GET" "/api/v1/visitor" "dns failure" (by decide)
  have ht2 := ht.2.2 "t1" "GET" "/api/v1/visitor" "dns failure" (by decide)
  exact ⟨hd.2.1, hd.1, ht.2.1, ht.1, hd2.1, hd2.2, ht2.2⟩

/-- C10: the guarded send reaches the network exactly when the
uppercased method is GET, OPTIONS or HEAD; every other method string
(lowercase or mixed-case mutating verbs, and verbs outside the blocked
list such as TRACE or CONNECT) raises `SecurityError` with no request
issued. -/
theorem gate_allowlist_exhaustive_case_insensitive
    (now m e : String) (resp : SessionResp) :
    ((safe_read_only_request now m e resp).networkCalled = true ↔
      pyUpper m ∈ allowed_methods) ∧
    (pyUpper m ∉ allowed_methods →
      (safe_read_only_request now m e resp).networkCalled = false ∧
      ∃ s, (safe_read_only_request now m e resp).outcome =
        ReqOutcome.securityError s) := by
  constructor
  · constructor
    · intro hn
      by_contra hna
      rw [(gate_not_allowed now m e resp hna).2.1] at hn
      cases hn
    · intro h
      exact (gate_allowed_run now m e resp h).1
  · intro h
    exact ⟨(gate_not_allowed now m e resp h).2.1,
      (gate_not_allowed now m e resp h).2.2⟩

/-- C10 witness: lowercase `get` proceeds to the network; `TRACE`
(outside both lists) and lowercase `delete` are blocked locally. -/
theorem gate_allowlist_exhaustive_case_insensitive_witness :
    (safe_read_only_request "t0" "get" "/api/v1/guide"
        (.exn "timeout")).networkCalled = true ∧
    (safe_read_only_request "t1" "TRACE" "/api/v1/guide"
        (.exn "unused")).networkCalled = false ∧
    (safe_read_only_request "t2" "delete" "/api/v1/guide"
        (.exn "unused")).networkCalled = false := by
  refine ⟨(gate_allowlist_exhaustive_case_insensitive "t0" "get"
      "/api/v1/guide" (.exn "timeout")).1.mpr (by decide), ?_, ?_⟩
  · exact ((gate_allowlist_exhaustive_case_insensitive "t1" "TRACE"
      "/api/v1/guide" (.exn "unused")).2 (by decide)).1
  · exact ((gate_allowlist_exhaustive_case_insensitive "t2" "delete"
      "/api/v1/guide" (.exn "unused")).2 (by decide)).1

/-- A method string whose uppercasing is allowed is not literally one
of the blocked verbs (those are already uppercase). -/
theorem not_blocked_of_pyUpper_allowed {u : String}
    (h : pyUpper u ∈ allowed_methods) : u ∉ blocked_methods := by
  intro hb
  simp only [blocked_methods, List.mem_cons, List.not_mem_nil, or_false] at hb
  rcases hb with hb | hb | hb | hb <;> subst hb <;> revert h <;> decide

/-- C9 counterexample: a successful lowercase `get` call logs an entry
whose method string is not literally in the allow-list. -/
theorem lowercase_entry_escapes_allowlist_counterexample :
    ¬ ∀ en ∈ runCalls [⟨"t0", "get", "/api/v1/guide",
        .response 200 "application/json" (some (.list [])) "" "OK"⟩],
      en.method ∈ allowed_methods := by
  decide

/-- C9 (amended): every entry ever appended to the audit log has a
method that uppercases into the allow-list; consequently the security
report counts zero blocked write attempts and reports safety status
VERIFIED SAFE. -/
theorem security_report_always_verified_safe
    (cs : List GateCall) (n : Nat) :
    (∀ en ∈ runCalls cs, pyUpper en.method ∈ allowed_methods) ∧
    (generate_security_report (runCalls cs) n).write_attempts_blocked = 0 ∧
    (generate_security_report (runCalls cs) n).safety_status =
      "VERIFIED SAFE" := by
  have hmeth := runCalls_method_allowed cs
  have hfilter : (runCalls cs).filter
      (fun l => decide (l.method ∈ blocked_methods)) = [] := by
    refine List.filter_eq_nil_iff.mpr ?_
    intro en hen
    simp only [decide_eq_true_eq]
    exact not_blocked_of_pyUpper_allowed (hmeth en hen)
  have hsafe : (runCalls cs).all (fun l => l.data_safe) = true :=
    List.all_eq_true.mpr (fun en hen => runCalls_data_safe cs en hen)
  refine ⟨hmeth, ?_, ?_⟩
  · simp only [generate_security_report]
    rw [hfilter]
    rfl
  · simp only [generate_security_report]
    rw [hfilter, hsafe]
    simp

/-- C9 witness: a concrete two-call sequence yields a report with zero
blocked write attempts and status VERIFIED SAFE. -/
theorem security_report_always_verified_safe_witness :
    SecurityReport.write_attempts_blocked (generate_security_report (runCalls
        [⟨"t0", "GET", "/api/v1/guide",
            .response 200 "application/json" (some (.list [])) "" "OK"⟩,
          ⟨"t1", "HEAD", "/api/v1/guide", .exn "timeout"⟩]) 4) = 0 ∧
    SecurityReport.safety_status (generate_security_report (runCalls
        [⟨"t0", "GET", "/api/v1/guide",
            .response 200 "application/json" (some (.list [])) "" "OK"⟩,
          ⟨"t1", "HEAD", "/api/v1/guide", .exn "timeout"⟩]) 4) =
      "VERIFIED SAFE" := by
  exact (security_report_always_verified_safe
    [⟨"t0", "GET", "/api/v1/guide",
        .response 200 "application/json" (some (.list [])) "" "OK"⟩,
      ⟨"t1", "HEAD", "/api/v1/guide", .exn "timeout"⟩] 4).2

/-- C6 counterexample: the HIGH clause of the claim is false — a GET
probe that returns an empty list (no data) is still rated HIGH by the
code, because `has_data` only checks `isinstance(get_data, (dict,
list))`, never non-emptiness. -/
theorem empty_get_data_rated_high_counterexample : ¬ claimC6HighIff := by
  intro h
  have := (h PyVal.none PyVal.none (PyVal.list [])).mp rfl
  exact absurd this (by decide)

/-- C6 (amended): the capability level is HIGH iff the GET probe
returned a dict or list (possibly empty); MEDIUM iff GET returned some
other non-`None` value; LOW iff GET returned `None` but HEAD did not
(regardless of the OPTIONS probe); NONE iff both GET and HEAD returned
`None`. -/
theorem write_capability_level_characterization
    (vOpt vHead vGet : PyVal) :
    (write_capability_level vOpt vHead vGet =
        "HIGH - Endpoint accessible with data" ↔
      (!vGet.isNone && vGet.isDictOrList) = true) ∧
    (write_capability_level vOpt vHead vGet =
        "MEDIUM - Endpoint accessible" ↔
      vGet.isNone = false ∧ vGet.isDictOrList = false) ∧
    (write_capability_level vOpt vHead vGet = "LOW - Endpoint exists" ↔
      vGet.isNone = true ∧ vHead.isNone = false) ∧
    (write_capability_level vOpt vHead vGet =
        "NONE - Endpoint not accessible" ↔
      vGet.isNone = true ∧ vHead.isNone = true) := by
  cases hg : vGet.isNone <;> cases hh : vHead.isNone <;>
    cases hd : vGet.isDictOrList <;>
    simp [write_capability_level, hg, hh, hd]

/-- C6 witness: concrete probes hitting each level — a non-empty dict
is HIGH, an empty list is also HIGH, a string is MEDIUM, GET `None`
with HEAD reachable is LOW even when OPTIONS succeeded, and all-`None`
is NONE. -/
theorem write_capability_level_characterization_witness :
    write_capability_level PyVal.none PyVal.none
        (PyVal.dict [("id", PyVal.int 1)]) =
      "HIGH - Endpoint accessible with data" ∧
    write_capability_level PyVal.none PyVal.none (PyVal.list []) =
      "HIGH - Endpoint accessible with data" ∧
    write_capability_level PyVal.none PyVal.none (PyVal.str "ok") =
      "MEDIUM - Endpoint accessible" ∧
    write_capability_level (PyVal.dict []) (PyVal.str "") PyVal.none =
      "LOW - Endpoint exists" ∧
    write_capability_level PyVal.none PyVal.none PyVal.none =
      "NONE - Endpoint not accessible" := by
  refine ⟨?_, ?_, ?_, ?_, ?_⟩
  · exact (write_capability_level_characterization PyVal.none PyVal.none
      (PyVal.dict [("id", PyVal.int 1)])).1.mpr (by decide)
  · exact (write_capability_level_characterization PyVal.none PyVal.none
      (PyVal.list [])).1.mpr (by decide)
  · exact (write_capability_level_characterization PyVal.none PyVal.none
      (PyVal.str "ok")).2.1.mpr (by exact ⟨rfl, rfl⟩)
  · exact (write_capability_level_characterization (PyVal.dict [])
      (PyVal.str "") PyVal.none).2.2.1.mpr (by exact ⟨rfl, rfl⟩)
  · exact (write_capability_level_characterization PyVal.none PyVal.none
      PyVal.none).2.2.2.mpr (by exact ⟨rfl, rfl⟩)

/-- C4: Transport classifies success exactly by `status_code < 400`,
and a raised `RequestException` is absorbed into an outcome with
`success = false` carrying the error message — it is never re-raised. -/
theorem transport_success_iff_status_lt_400 (b e m : String) :
    (∀ (st : Nat) (ct c : String) (p : Option PyVal)
        (hs : List (String × String)),
      ((test_pendo_endpoint b e m (.ok st ct c p hs)).success = true ↔
        st < 400)) ∧
    (∀ msg : String,
      (test_pendo_endpoint b e m (.exn msg)).success = false ∧
      (test_pendo_endpoint b e m (.exn msg)).error = some msg) := by
  constructor
  · intro st ct c p hs
    simp only [test_pendo_endpoint]
    split
    · rcases p with _ | v <;> simp
    · split <;> simp
  · intro msg
    exact ⟨rfl, rfl⟩

/-- C4 witness: a 200 response is a success, a 404 is not, and a
connection error becomes a failed outcome holding the message. -/
theorem transport_success_iff_status_lt_400_witness :
    (test_pendo_endpoint "https://app.pendo.io" "/api/v1/guide" "GET"
        (.ok 200 "application/json" "[]" (some (.list [])) [])).success =
      true ∧
    (test_pendo_endpoint "https://app.pendo.io" "/api/v1/guide" "GET"
        (.ok 404 "text/html" "" Option.none [])).success = false ∧
    (test_pendo_endpoint "https://app.pendo.io" "/api/v1/guide" "GET"
        (.exn "connection refused")).success = false ∧
    (test_pendo_endpoint "https://app.pendo.io" "/api/v1/guide" "GET"
        (.exn "connection refused")).error = some "connection refused" := by
  have h := transport_success_iff_status_lt_400 "https://app.pendo.io"
    "/api/v1/guide" "GET"
  refine ⟨(h.1 200 "application/json" "[]" (some (.list [])) []).mpr
    (by decide), ?_, (h.2 "connection refused").1, (h.2 "connection refused").2⟩
  have h404 := h.1 404 "text/html" "" Option.none []
  cases hs : (test_pendo_endpoint "https://app.pendo.io" "/api/v1/guide"
      "GET" (.ok 404 "text/html" "" Option.none [])).success
  · rfl
  · exact absurd (h404.mp hs) (by decide)

section EngineLemmas

/-- The Probe Engine emits exactly one outcome per (host, endpoint)
attempt. -/
theorem engine_length (bs eps : List String)
    (net : String → String → HttpResp) :
    (test_real_pendo_endpoints bs eps net).length =
      bs.length * eps.length := by
  induction bs with
  | nil => simp [test_real_pendo_endpoints]
  | cons b bs ih =>
    simp [test_real_pendo_endpoints, ih, Nat.succ_mul, Nat.add_comm]

/-- Outcome `i * |endpoints| + j` of a run is the outcome of host `i`
against endpoint `j`: hosts are the outer loop, endpoints the inner. -/
theorem engine_getElem (bs eps : List String)
    (net : String → String → HttpResp) (i j : Nat)
    (hi : i < bs.length) (hj : j < eps.length) :
    (test_real_pendo_endpoints bs eps net)[i * eps.length + j]? =
      some (test_pendo_endpoint (bs.get ⟨i, hi⟩) (eps.get ⟨j, hj⟩) "GET"
        (net (bs.get ⟨i, hi⟩) (eps.get ⟨j, hj⟩))) := by
  induction bs generalizing i with
  | nil => exact absurd hi (by simp)
  | cons b bs ih =>
    cases i with
    | zero =>
      simp only [test_real_pendo_endpoints, Nat.zero_mul, Nat.zero_add]
      rw [List.getElem?_append, if_pos (by simpa using hj),
        List.getElem?_map, List.getElem?_eq_getElem hj]
      rfl
    | succ i =>
      have hi' : i < bs.length := by simpa using hi
      have hidx : (i + 1) * eps.length + j =
          eps.length + (i * eps.length + j) := by
        rw [Nat.succ_mul]; omega
      simp only [test_real_pendo_endpoints, hidx]
      rw [List.getElem?_append, if_neg (by simp)]
      simpa using ih i hi'

end EngineLemmas

/-- C7: a run over `hosts × endpoints` yields exactly
`|hosts| * |endpoints|` outcomes, in deterministic order with hosts
outer and endpoints inner; an attempt whose Transport raises is
recorded at its position as a failed outcome and the run continues. -/
theorem probe_engine_one_outcome_per_attempt (bs eps : List String)
    (net : String → String → HttpResp) :
    (test_real_pendo_endpoints bs eps net).length =
      bs.length * eps.length ∧
    ∀ (i j : Nat) (hi : i < bs.length) (hj : j < eps.length),
      (test_real_pendo_endpoints bs eps net)[i * eps.length + j]? =
        some (test_pendo_endpoint (bs.get ⟨i, hi⟩) (eps.get ⟨j, hj⟩)
          "GET" (net (bs.get ⟨i, hi⟩) (eps.get ⟨j, hj⟩))) ∧
      ∀ msg : String,
        net (bs.get ⟨i, hi⟩) (eps.get ⟨j, hj⟩) = .exn msg →
        (test_pendo_endpoint (bs.get ⟨i, hi⟩) (eps.get ⟨j, hj⟩) "GET"
          (net (bs.get ⟨i, hi⟩) (eps.get ⟨j, hj⟩))).success = false := by
  refine ⟨engine_length bs eps net, ?_⟩
  intro i j hi hj
  refine ⟨engine_getElem bs eps net i j hi hj, ?_⟩
  intro msg hmsg
  rw [hmsg]
  rfl

/-- A concrete response oracle that raises for one of six attempts. -/
def wnet : String → String → HttpResp := fun b e =>
  if b = "h2" && e = "e2" then .exn "connection refused"
  else .ok 200 "application/json" "[]" (some (.list [])) []

/-- C7 witness: with 2 hosts and 3 endpoints, one of which raises, the
run still returns 6 outcomes and the raising attempt sits at position
`1 * 3 + 1` marked failed. -/
theorem probe_engine_one_outcome_per_attempt_witness :
    (test_real_pendo_endpoints ["h1", "h2"] ["e1", "e2", "e3"]
        wnet).length = 6 ∧
    (test_pendo_endpoint "h2" "e2" "GET" (wnet "h2" "e2")).success =
      false ∧
    (test_real_pendo_endpoints ["h1", "h2"] ["e1", "e2", "e3"]
        wnet)[1 * (["e1", "e2", "e3"] : List String).length + 1]? =
      some (test_pendo_endpoint "h2" "e2" "GET" (wnet "h2" "e2")) := by
  have h := probe_engine_one_outcome_per_attempt ["h1", "h2"]
    ["e1", "e2", "e3"] wnet
  have h11 := h.2 1 1 (by decide) (by decide)
  exact ⟨h.1, h11.2 "connection refused" rfl, h11.1⟩

/-- C5: for a nonempty run, the Classifier's overall verdict is a
function of the overall success ratio with inclusive lower bounds:
75% and above is FULL ACCESS, 50% up to but excluding 75% is MODERATE
ACCESS, 25% up to but excluding 50% is LIMITED ACCESS, below 25% is
MINIMAL ACCESS. -/
theorem classifier_verdict_thresholds (results : List InvResult)
    (_h : results ≠ []) :
    ((analyze_permissions results).2 = "FULL ACCESS" ↔
      75 ≤ (((results.filter (fun r => r.success)).length : ℚ) /
        (results.length : ℚ)) * 100) ∧
    ((analyze_permissions results).2 = "MODERATE ACCESS" ↔
      50 ≤ (((results.filter (fun r => r.success)).length : ℚ) /
        (results.length : ℚ)) * 100 ∧
      (((results.filter (fun r => r.success)).length : ℚ) /
        (results.length : ℚ)) * 100 < 75) ∧
    ((analyze_permissions results).2 = "LIMITED ACCESS" ↔
      25 ≤ (((results.filter (fun r => r.success)).length : ℚ) /
        (results.length : ℚ)) * 100 ∧
      (((results.filter (fun r => r.success)).length : ℚ) /
        (results.length : ℚ)) * 100 < 50) ∧
    ((analyze_permissions results).2 = "MINIMAL ACCESS" ↔
      (((results.filter (fun r => r.success)).length : ℚ) /
        (results.length : ℚ)) * 100 < 25) := by
  unfold analyze_permissions
  dsimp only
  split_ifs with h75 h50 h25
  · refine ⟨iff_of_true rfl h75, iff_of_false (by decide) ?_,
      iff_of_false (by decide) ?_, iff_of_false (by decide) ?_⟩
    · rintro ⟨-, hlt⟩; exact absurd h75 (not_le.mpr hlt)
    · rintro ⟨-, hlt⟩; exact absurd h75 (not_le.mpr (by linarith))
    · intro hlt; exact absurd h75 (not_le.mpr (by linarith))
  · refine ⟨iff_of_false (by decide) h75,
      iff_of_true rfl ⟨h50, not_le.mp h75⟩,
      iff_of_false (by decide) ?_, iff_of_false (by decide) ?_⟩
    · rintro ⟨-, hlt⟩; exact absurd h50 (not_le.mpr hlt)
    · intro hlt; exact absurd h50 (not_le.mpr (by linarith))
  · refine ⟨iff_of_false (by decide) h75,
      iff_of_false (by decide) (fun hc => absurd hc.1 h50),
      iff_of_true rfl ⟨h25, not_le.mp h50⟩,
      iff_of_false (by decide) ?_⟩
    · intro hlt; exact absurd h25 (not_le.mpr hlt)
  · refine ⟨iff_of_false (by decide) h75,
      iff_of_false (by decide) (fun hc => absurd hc.1 h50),
      iff_of_false (by decide) (fun hc => absurd hc.1 h25),
      iff_of_true rfl (not_le.mp h25)⟩

/-- A run with `s` successful and `f` failed operations. -/
def resultsOf (s f : Nat) : List InvResult :=
  List.replicate s ⟨"Cat", "Op", true, ""⟩ ++
    List.replicate f ⟨"Cat", "Op", false, ""⟩

/-- C5 witness: the seven concrete bands of the claim — 75/100 is
FULL, 74/100 and 50/100 are MODERATE, 49/100 and 25/100 are LIMITED,
24/100 and 0/100 are MINIMAL. -/
theorem classifier_verdict_thresholds_witness :
    (analyze_permissions (resultsOf 75 25)).2 = "FULL ACCESS" ∧
    (analyze_permissions (resultsOf 74 26)).2 = "MODERATE ACCESS" ∧
    (analyze_permissions (resultsOf 50 50)).2 = "MODERATE ACCESS" ∧
    (analyze_permissions (resultsOf 49 51)).2 = "LIMITED ACCESS" ∧
    (analyze_permissions (resultsOf 25 75)).2 = "LIMITED ACCESS" ∧
    (analyze_permissions (resultsOf 24 76)).2 = "MINIMAL ACCESS" ∧
    (analyze_permissions (resultsOf 0 100)).2 = "MINIMAL ACCESS" := by
  refine ⟨?_, ?_, ?_, ?_, ?_, ?_, ?_⟩
  · have l1 : ((resultsOf 75 25).filter (fun r => r.success)).length = 75 :=
      by decide
    have l2 : (resultsOf 75 25).length = 100 := by decide
    exact (classifier_verdict_thresholds (resultsOf 75 25) (by decide)).1.mpr
      (by rw [l1, l2]; norm_num)
  · have l1 : ((resultsOf 74 26).filter (fun r => r.success)).length = 74 :=
      by decide
    have l2 : (resultsOf 74 26).length = 100 := by decide
    exact (classifier_verdict_thresholds (resultsOf 74 26)
      (by decide)).2.1.mpr (by rw [l1, l2]; norm_num)
  · have l1 : ((resultsOf 50 50).filter (fun r => r.success)).length = 50 :=
      by decide
    have l2 : (resultsOf 50 50).length = 100 := by decide
    exact (classifier_verdict_thresholds (resultsOf 50 50)
      (by decide)).2.1.mpr (by rw [l1, l2]; norm_num)
  · have l1 : ((resultsOf 49 51).filter (fun r => r.success)).length = 49 :=
      by decide
    have l2 : (resultsOf 49 51).length = 100 := by decide
    exact (classifier_verdict_thresholds (resultsOf 49 51)
      (by decide)).2.2.1.mpr (by rw [l1, l2]; norm_num)
  · have l1 : ((resultsOf 25 75).filter (fun r => r.success)).length = 25 :=
      by decide
    have l2 : (resultsOf 25 75).length = 100 := by decide
    exact (classifier_verdict_thresholds (resultsOf 25 75)
      (by decide)).2.2.1.mpr (by rw [l1, l2]; norm_num)
  · have l1 : ((resultsOf 24 76).filter (fun r => r.success)).length = 24 :=
      by decide
    have l2 : (resultsOf 24 76).length = 100 := by decide
    exact (classifier_verdict_thresholds (resultsOf 24 76)
      (by decide)).2.2.2.mpr (by rw [l1, l2]; norm_num)
  · have l1 : ((resultsOf 0 100).filter (fun r => r.success)).length = 0 :=
      by decide
    have l2 : (resultsOf 0 100).length = 100 := by decide
    exact (classifier_verdict_thresholds (resultsOf 0 100)
      (by decide)).2.2.2.mpr (by rw [l1, l2]; norm_num)

/-- C8 counterexample: two builds over the same outcome list are not
identical Reports — `generate_comprehensive_report` stamps the report
with `datetime.now()`, so the two calls differ in their timestamp
field. -/
theorem report_rebuild_not_identical_counterexample :
    generate_comprehensive_report "2025-01-01T00:00:00" "key" "case"
        [] Option.none [] ≠
      generate_comprehensive_report "2025-01-01T00:00:01" "key" "case"
        [] Option.none [] := by
  intro hc
  have h := congrArg ExplorerReport.exploration_timestamp hc
  exact absurd h (by decide)

/-- C8 (amended): for both cited reporters, report construction is
deterministic in its inputs and two builds over the same outcome list
(and the same instance attributes) agree on every field that is
computed from those inputs; the fields read from ambient effects at
build time may differ between the two calls — the generation timestamp
in both reporters, and additionally, in the investigator's reporter,
the `api_status` and `data_overview` fields, which are live network
reads (the latter embedding a second clock reading). -/
theorem report_deterministic_up_to_timestamp
    (t1 t2 api_key case_code : String) (base_urls : List String)
    (working : Option String)
    (all_results : List (List TransportOutcome))
    (base_url : String) (st1 st2 ov1 ov2 : PyVal)
    (results : List InvResult) :
    (generate_comprehensive_report t1 api_key case_code base_urls
        working all_results =
      { generate_comprehensive_report t2 api_key case_code base_urls
          working all_results with exploration_timestamp := t1 }) ∧
    (generate_investigation_report t1 api_key base_url st1 ov1 results =
      { generate_investigation_report t2 api_key base_url st2 ov2 results
          with
        investigation_timestamp := t1
        api_status := st1
        data_overview := ov1 }) :=
  ⟨rfl, rfl⟩

/-- C8 witness: two builds at distinct clock readings (and, for the
investigator, distinct live-read values) over concrete outcome lists
agree on every field computed from the outcomes. -/
theorem report_deterministic_up_to_timestamp_witness :
    generate_comprehensive_report "2025-01-01T00:00:00" "key" "case"
        ["https://app.pendo.io"] (some "https://app.pendo.io")
        [[test_pendo_endpoint "https://app.pendo.io" "/api/v1/guide"
          "GET" (.ok 200 "application/json" "[]" (some (.list [])) [])]] =
      { generate_comprehensive_report "2025-01-01T00:00:05" "key" "case"
          ["https://app.pendo.io"] (some "https://app.pendo.io")
          [[test_pendo_endpoint "https://app.pendo.io" "/api/v1/guide"
            "GET" (.ok 200 "application/json" "[]" (some (.list [])) [])]]
        with exploration_timestamp := "2025-01-01T00:00:00" } ∧
    generate_investigation_report "2025-01-01T00:00:00" "key"
        "https://app.pendo.io" (.dict [("status", .str "operational")])
        (.dict [("timestamp", .str "2025-01-01T00:00:01")])
        [⟨"Guides", "List All Guides", true, ""⟩] =
      { generate_investigation_report "2025-01-01T00:00:05" "key"
          "https://app.pendo.io" (.dict [("status", .str "degraded")])
          (.dict [("timestamp", .str "2025-01-01T00:00:06")])
          [⟨"Guides", "List All Guides", true, ""⟩]
          with
        investigation_timestamp := "2025-01-01T00:00:00"
        api_status := .dict [("status", .str "operational")]
        data_overview := .dict [("timestamp", .str "2025-01-01T00:00:01")] } :=
  report_deterministic_up_to_timestamp "2025-01-01T00:00:00"
    "2025-01-01T00:00:05" "key" "case" ["https://app.pendo.io"]
    (some "https://app.pendo.io")
    [[test_pendo_endpoint "https://app.pendo.io" "/api/v1/guide"
      "GET" (.ok 200 "application/json" "[]" (some (.list [])) [])]]
    "https://app.pendo.io" (.dict [("status", .str "operational")])
    (.dict [("status", .str "degraded")])
    (.dict [("timestamp", .str "2025-01-01T00:00:01")])
    (.dict [("timestamp", .str "2025-01-01T00:00:06")])
    [⟨"Guides", "List All Guides", true, ""⟩]
